import Mathlib

/-!
Shallow embedding of `py_utils/logger.py` and `py_utils/timer.py`.

All `Logger` instances in `logger.py` call `logging.getLogger(__name__)`,
which returns one shared logger object per process.  The embedding therefore
keeps the shared logger's state (level, handlers) together with the file
system and the console stream in a single `World`, while each `Logger`
instance carries only its own `log_file` attribute.
-/

namespace PyUtils
namespace PyLogging

/-- Numeric value of `logging.DEBUG`. -/
def DEBUG : Nat := 10

/-- Numeric value of `logging.INFO`. -/
def INFO : Nat := 20

/-- Numeric value of `logging.WARNING`. -/
def WARNING : Nat := 30

/-- Numeric value of `logging.ERROR`. -/
def ERROR : Nat := 40

/-- Numeric value of `logging.CRITICAL`. -/
def CRITICAL : Nat := 50

/-- A value of an uppercase attribute of the `logging` module: an integer
level constant, or the string constant `BASIC_FORMAT`. -/
inductive PyAttr where
  | int (n : Nat)
  | str (s : String)
deriving DecidableEq, Repr

/-- The uppercase attributes of CPython's `logging` module, as consulted by
`getattr(logging, log_level.upper(), logging.INFO)` in `Logger.set_params`.
These are `CRITICAL`, `FATAL`, `ERROR`, `WARNING`, `WARN`, `INFO`, `DEBUG`,
`NOTSET` and the string `BASIC_FORMAT`; every other lookup misses and falls
back to the default argument. -/
def logging_uppercase_attr (name : String) : Option PyAttr :=
  if name = "CRITICAL" then some (.int 50)
  else if name = "FATAL" then some (.int 50)
  else if name = "ERROR" then some (.int 40)
  else if name = "WARNING" then some (.int 30)
  else if name = "WARN" then some (.int 30)
  else if name = "INFO" then some (.int 20)
  else if name = "DEBUG" then some (.int 10)
  else if name = "NOTSET" then some (.int 0)
  else if name = "BASIC_FORMAT" then some (.str "%(levelname)s:%(name)s:%(message)s")
  else none

/-- The registered level names of the `logging` module (`logging`'s internal
name-to-level table), used by `setLevel` when handed a string. -/
def nameToLevel (s : String) : Option Nat :=
  if s = "CRITICAL" then some 50
  else if s = "FATAL" then some 50
  else if s = "ERROR" then some 40
  else if s = "WARN" then some 30
  else if s = "WARNING" then some 30
  else if s = "INFO" then some 20
  else if s = "DEBUG" then some 10
  else if s = "NOTSET" then some 0
  else none

/-- `setLevel`'s argument check: an integer passes through unchanged; a
string must be a registered level name, otherwise `ValueError` is raised. -/
def checkLevel : PyAttr → Except String Nat
  | .int n => .ok n
  | .str s =>
    match nameToLevel s with
    | some n => .ok n
    | none => .error "ValueError"

/-- Python's `str.upper` on the ASCII alphabet (the only characters the
level names use), written structurally so proofs can evaluate it. -/
def upper (s : String) : String := String.mk (s.data.map Char.toUpper)

/-- Kind of a handler attached to the shared logger: a console
`StreamHandler` or a `FileHandler` writing to `path`. -/
inductive HandlerKind where
  | stream
  | file (path : String)
deriving DecidableEq, Repr

/-- A handler attached to the shared logger, with its own level. -/
structure Handler where
  kind : HandlerKind
  level : Nat
deriving DecidableEq, Repr

/-- `isinstance(handler, logging.FileHandler)`. -/
def Handler.isFileHandler (h : Handler) : Bool :=
  match h.kind with
  | .file _ => true
  | .stream => false

/-- Whether the handler is a console `StreamHandler`. -/
def Handler.isStream (h : Handler) : Bool :=
  match h.kind with
  | .file _ => false
  | .stream => true

/-- A record emitted through a handler; the formatter renders it as
`<asctime> - <levelname> - <msg>`, so level and message text determine the
line up to the timestamp. -/
structure LogRecord where
  level : Nat
  msg : String
deriving DecidableEq, Repr

/-- The process state the logger utilities act on: the shared
`logging.getLogger(__name__)` logger (its level and handler list), the
contents of every log file, and the console stream. -/
structure World where
  level : Nat
  handlers : List Handler
  files : String → List LogRecord
  console : List LogRecord

/-- A fresh process: the shared logger starts with level `NOTSET` (0), no
handlers, empty files and an empty console. -/
def World.pristine : World :=
  { level := 0, handlers := [], files := fun _ => [], console := [] }

/-- `Logger.getEffectiveLevel`: the logger's own level when set, otherwise
the root logger's default level `WARNING` (the root level is never changed
by this code). -/
def World.effectiveLevel (w : World) : Nat :=
  if w.level ≠ 0 then w.level else WARNING

/-- `Handler.handle`: emit the record through one handler when the record's
level reaches the handler's level.  A stream handler appends the record to
the console; a file handler appends it to its file. -/
def emitToHandler (rec : LogRecord) (w : World) (h : Handler) : World :=
  if h.level ≤ rec.level then
    match h.kind with
    | .stream => { w with console := w.console ++ [rec] }
    | .file p =>
      { w with files := fun q => if q = p then w.files p ++ [rec] else w.files q }
  else w

/-- A leveled logging call on the shared logger (`logger.info` etc.): if the
record's level reaches the logger's effective level, every attached handler
whose own level it also reaches emits it.  (The logger propagates to the
root logger, which holds no handlers here, and the last-resort handler is
never consulted because the claims only exercise worlds holding at least
one handler.) -/
def logCall (w : World) (lvl : Nat) (msg : String) : World :=
  if w.effectiveLevel ≤ lvl then
    w.handlers.foldl (emitToHandler { level := lvl, msg := msg }) w
  else w

/-- The per-instance state of a `Logger` object: only the `log_file`
attribute lives on the instance; `self.logger` is the shared logger held in
the `World`. -/
structure LoggerInst where
  log_file : Option String
deriving DecidableEq, Repr

namespace Logger

/-- `Logger.set_log_file`: records the path on the instance, truncates the
file by opening it in write mode, and attaches a `FileHandler` (at level
`DEBUG`) only when no file handler is attached yet. -/
def set_log_file (w : World) (inst : LoggerInst) (log_file : String) :
    World × LoggerInst :=
  let inst := { inst with log_file := some log_file }
  let w := { w with files := fun q => if q = log_file then [] else w.files q }
  if w.handlers.any Handler.isFileHandler then (w, inst)
  else
    ({ w with handlers := w.handlers ++ [{ kind := .file log_file, level := DEBUG }] },
     inst)

/-- `Logger.clear_log_file`: removes every `FileHandler` from the shared
logger and resets the instance's `log_file` attribute. -/
def clear_log_file (w : World) (inst : LoggerInst) : World × LoggerInst :=
  ({ w with handlers := w.handlers.filter (fun h => ! h.isFileHandler) },
   { inst with log_file := none })

/-- `Logger.set_params`: resolves the level name through
`getattr(logging, log_level.upper(), logging.INFO)`, sets the shared
logger's level and every handler's level to the resolved value, then either
sets or clears the log file.  `setLevel` raises `ValueError` when the
resolved attribute is a non-level string (`BASIC_FORMAT`). -/
def set_params (w : World) (inst : LoggerInst) (log_level : String)
    (log_file : Option String) : Except String (World × LoggerInst) :=
  match checkLevel ((logging_uppercase_attr (upper log_level)).getD (.int INFO)) with
  | .error e => .error e
  | .ok log_level_value =>
    let w := { w with
      level := log_level_value,
      handlers := w.handlers.map (fun h => { h with level := log_level_value }) }
    match log_file with
    | some p => .ok (set_log_file w inst p)
    | none => .ok (clear_log_file w inst)

/-- `Logger.__init__`: sets the shared logger's level, stores the instance's
`log_file` attribute, attaches a new console handler at that level, and, if
a log file was given, calls `set_log_file`. -/
def init (w : World) (log_file : Option String) (level : Nat) :
    World × LoggerInst :=
  let w := { w with level := level }
  let inst : LoggerInst := { log_file := log_file }
  let w := { w with handlers := w.handlers ++ [{ kind := .stream, level := level }] }
  match log_file with
  | some p => set_log_file w inst p
  | none => (w, inst)

/-- `Logger.info`. -/
def info (w : World) (msg : String) : World := logCall w INFO msg

/-- `Logger.warning`. -/
def warning (w : World) (msg : String) : World := logCall w WARNING msg

/-- `Logger.error`. -/
def error (w : World) (msg : String) : World := logCall w ERROR msg

/-- `Logger.critical`. -/
def critical (w : World) (msg : String) : World := logCall w CRITICAL msg

/-- `Logger.debug`. -/
def debug (w : World) (msg : String) : World := logCall w DEBUG msg

/-- The separator line used by `Logger.processing_log` (copied from the
source literal). -/
def separator : String := "========================================"

/-- `Logger.processing_log`: logs, at `INFO` level, the message wrapped in
separator lines; the emitted string starts with a newline. -/
def processing_log (w : World) (msg : String) : World :=
  logCall w INFO ("\n" ++ separator ++ "\n" ++ msg ++ "\n" ++ separator)

end Logger

/-- Module import of `logger.py`: the module-level `logger = Logger()` is
constructed with default arguments in a fresh process. -/
def importLoggerModule : World × LoggerInst :=
  Logger.init World.pristine none INFO

/-- The paths of the file handlers attached to the shared logger. -/
def World.fileSinkPaths (w : World) : List String :=
  w.handlers.filterMap (fun h =>
    match h.kind with
    | .file p => some p
    | .stream => none)

/-- Number of file handlers attached to the shared logger. -/
def World.fileCount (w : World) : Nat :=
  (w.handlers.filter Handler.isFileHandler).length

/-- The minimum severity level a given `Logger` instance observes: every
instance's `self.logger` is the shared logger, so this is the shared level
whatever instance looks at it. -/
def minSeverityThrough (w : World) (_inst : LoggerInst) : Nat := w.level

/-- Run a sequence of leveled logging calls. -/
def runLogs (w : World) (ms : List (Nat × String)) : World :=
  ms.foldl (fun w m => logCall w m.1 m.2) w

/-- The severity level names named by `set_params`'s docstring and the
configuration surface: INFO, DEBUG, WARNING, ERROR or CRITICAL. -/
def validLevelNames : List String :=
  ["INFO", "DEBUG", "WARNING", "ERROR", "CRITICAL"]

/-- The world after a `set_params` call, when it did not raise. -/
def resultWorld : Except String (World × LoggerInst) → Option World
  | .ok r => some r.1
  | .error _ => none

/-- The world and instance after a `set_params` call, when it did not
raise. -/
def resultPair : Except String (World × LoggerInst) → Option (World × LoggerInst)
  | .ok r => some r
  | .error _ => none

/-- The shared logger's level after a `set_params` call, when it did not
raise. -/
def resultLevel : Except String (World × LoggerInst) → Option Nat
  | .ok r => some r.1.level
  | .error _ => none

/-- `k` successive default `Logger()` constructions in a fresh process, the
module-level `logger` being the first. -/
def constructK : Nat → World
  | 0 => World.pristine
  | k + 1 => (Logger.init (constructK k) none INFO).1

/-- The operations of `logger.py` that touch the shared logger's handler
list or level.  The world-level effect of `set_params`, `set_log_file` and
`clear_log_file` does not depend on which instance performs them, so a
throwaway instance is used. -/
inductive LoggerOp where
  | construct (log_file : Option String) (level : Nat)
  | setParams (log_level : String) (log_file : Option String)
  | setLogFile (path : String)
  | clearLogFile
  | logMsg (lvl : Nat) (msg : String)

/-- Apply one operation to the world.  When `set_params` raises
(`ValueError` from `setLevel`), the raise happens before any mutation, so
the world is returned unchanged. -/
def applyOp (w : World) : LoggerOp → World
  | .construct f l => (Logger.init w f l).1
  | .setParams s f =>
    match Logger.set_params w { log_file := none } s f with
    | .ok r => r.1
    | .error _ => w
  | .setLogFile p => (Logger.set_log_file w { log_file := none } p).1
  | .clearLogFile => (Logger.clear_log_file w { log_file := none }).1
  | .logMsg lvl msg => logCall w lvl msg

/-- Which logger a `log_function` wrapper routes its trace calls to: the
module-level `logger` or an explicitly supplied instance. -/
inductive LoggerRef where
  | builtin
  | custom (id : Nat)
deriving DecidableEq, Repr

/-- One `logger_to_use.debug(...)` invocation made by a `log_function`
wrapper: the target logger, the severity (always `DEBUG`) and the message. -/
structure DebugCall where
  target : LoggerRef
  level : Nat
  msg : String
deriving DecidableEq, Repr

/-- The wrapper produced by `log_function` for a function with the given
`__module__` and `__name__`.  The wrapped function's body is modelled as
`func`, returning a value or a raised exception; the wrapper logs
`<module>.<name> BEGIN` at debug level, calls `func` with the original
arguments, logs `<module>.<name> END` only after a normal return, and
passes the result (or the exception) through unchanged.  `logger_to_use`
is `logger_instance` when supplied, otherwise the module-level `logger`
(the bare decoration shape); the keyword shape `log_function(logger_instance=li)`
returns `lambda f: log_function(f, logger_instance=li)`, which produces this
same wrapper with `logger_instance = some li`. -/
def log_function_wrapper {α β E : Type} (logger_instance : Option LoggerRef)
    (module_name func_name : String) (func : α → Except E β) (args : α) :
    List DebugCall × Except E β :=
  let logger_to_use := logger_instance.getD .builtin
  let begin_call : DebugCall :=
    { target := logger_to_use, level := DEBUG,
      msg := module_name ++ "." ++ func_name ++ " BEGIN" }
  match func args with
  | .error e => ([begin_call], .error e)
  | .ok result =>
    ([begin_call,
      { target := logger_to_use, level := DEBUG,
        msg := module_name ++ "." ++ func_name ++ " END" }],
     .ok result)

end PyLogging

namespace PyTimer

/-- A tqdm progress bar: its construction arguments, the accumulated count
from `update` calls, and how many times `close` has been called on it. -/
structure Bar where
  total : Nat
  desc : String
  n : Nat
  closeCount : Nat
deriving DecidableEq, Repr

/-- `tqdm.update(n)`: advance the bar's count. -/
def tqdmUpdate (b : Bar) (n : Nat) : Bar := { b with n := b.n + n }

/-- `tqdm.close()`. -/
def tqdmClose (b : Bar) : Bar := { b with closeCount := b.closeCount + 1 }

/-- The state of a `Timer` object.  `time.time()` is modelled as a
`Nat`-valued clock counting hundredths of a second, which makes the
two-decimal formatting of the elapsed time exact.  Attributes that Python
sets only in `__enter__`/`__exit__` (`start`, `end`, `elapsed`,
`progress_bar`) are `Option`-valued and start as `none`. -/
structure Timer where
  name : String
  total : Option Nat
  logger : Option Nat
  progress_bar : Option Bar
  start : Option Nat
  end_ : Option Nat
  elapsed : Option Nat
deriving DecidableEq, Repr

/-- `Timer.__init__`. -/
def Timer.mk' (name : String) (total : Option Nat) (logger : Option Nat) : Timer :=
  { name := name, total := total, logger := logger,
    progress_bar := none, start := none, end_ := none, elapsed := none }

/-- `Timer.__enter__`: record the start time and create the progress bar if
a total was supplied. -/
def Timer.enter (t : Timer) (now : Nat) : Timer :=
  let t := { t with start := some now }
  match t.total with
  | some tot =>
    { t with progress_bar := some { total := tot, desc := t.name, n := 0, closeCount := 0 } }
  | none => t

/-- `Timer.update`: advance the progress bar when one exists, otherwise do
nothing. -/
def Timer.update (t : Timer) (n : Nat) : Timer :=
  match t.progress_bar with
  | some b => { t with progress_bar := some (tqdmUpdate b n) }
  | none => t

/-- Where the `__exit__` report goes: `self.logger.info(...)` when a logger
was configured, `print(...)` to standard output otherwise. -/
inductive TimerOut where
  | logInfo (msg : String)
  | stdout (msg : String)
deriving DecidableEq, Repr

/-- Two-digit rendering of a number below 100. -/
def pad2 (n : Nat) : String :=
  if n < 10 then "0" ++ toString n else toString n

/-- Python's `format(x, "4.2f")` on an exact value of `cs` hundredths of a
second: two decimal places, padded with spaces to a minimum width of 4
(the padding never fires for non-negative values, whose rendering is at
least 4 characters wide). -/
def format_4_2f (cs : Nat) : String :=
  let s := toString (cs / 100) ++ "." ++ pad2 (cs % 100)
  if s.length < 4 then String.mk (List.replicate (4 - s.length) ' ') ++ s else s

/-- `Timer.__exit__`: record the end time, compute the elapsed time, close
the progress bar if one exists, emit the report, and return `None` (so the
`with` statement never suppresses an exception).  The `exc_type`/`exc_val`/
`exc_tb` arguments are unused by the source, so they are not passed here. -/
def Timer.exitTimer (t : Timer) (now : Nat) : Timer × List TimerOut × Option Bool :=
  let t := { t with end_ := some now }
  let elapsed := now - (t.start.getD 0)
  let t := { t with elapsed := some elapsed }
  let t :=
    match t.progress_bar with
    | some b => { t with progress_bar := some (tqdmClose b) }
    | none => t
  let msg := t.name ++ " took " ++ format_4_2f elapsed ++ " seconds.\n"
  match t.logger with
  | some _ => (t, [TimerOut.logInfo msg], none)
  | none => (t, [TimerOut.stdout msg], none)

/-- Python truthiness of an `__exit__` return value. -/
def pyTruthy : Option Bool → Bool
  | none => false
  | some b => b

/-- Outcome of a `with` statement around a guarded block. -/
inductive WithResult (E α : Type) where
  | ok (a : α)
  | raised (e : E)
  | suppressed
deriving DecidableEq, Repr

/-- The `with Timer(name, total, logger) as timer:` statement (PEP 343
semantics): `__enter__` runs at time `t0`; the guarded block calls
`timer.update` with the amounts in `updates` and then either returns a
value or raises, per `outcome`; `__exit__` runs at time `t1` on both exit
paths; a raised exception is re-raised unless `__exit__` returned a truthy
value. -/
def withTimer {E α : Type} (name : String) (total : Option Nat)
    (logger : Option Nat) (t0 t1 : Nat) (updates : List Nat)
    (outcome : Except E α) : Timer × List TimerOut × WithResult E α :=
  let t := (Timer.mk' name total logger).enter t0
  let t := updates.foldl (fun t n => t.update n) t
  let (t1s, outs, ret) := t.exitTimer t1
  match outcome with
  | .ok a => (t1s, outs, .ok a)
  | .error e =>
    if pyTruthy ret then (t1s, outs, .suppressed) else (t1s, outs, .raised e)

end PyTimer
end PyUtils

namespace PyUtils
namespace PyLogging

theorem foldl_emit_console (rec : LogRecord) :
    ∀ (hs : List Handler) (w : World),
    (hs.foldl (emitToHandler rec) w).console
      = w.console ++ (hs.filter (fun h => h.isStream && decide (h.level ≤ rec.level))).map
          (fun _ => rec) := by
  intro hs
  induction hs with
  | nil => intro w; simp
  | cons h hs ih =>
    intro w
    obtain ⟨hk, hlvl⟩ := h
    cases hk with
    | stream =>
      by_cases hle : hlvl ≤ rec.level
      · simp [List.foldl_cons, emitToHandler, hle, Handler.isStream, ih, List.append_assoc,
          List.filter_cons]
      · simp [List.foldl_cons, emitToHandler, hle, Handler.isStream, ih, List.filter_cons]
    | file p =>
      by_cases hle : hlvl ≤ rec.level
      · simp [List.foldl_cons, emitToHandler, hle, Handler.isStream, ih, List.filter_cons]
      · simp [List.foldl_cons, emitToHandler, hle, Handler.isStream, ih, List.filter_cons]

theorem foldl_emit_files (rec : LogRecord) (p : String) :
    ∀ (hs : List Handler) (w : World),
    (hs.foldl (emitToHandler rec) w).files p
      = w.files p ++ (hs.filter (fun h =>
            decide (h.kind = HandlerKind.file p) && decide (h.level ≤ rec.level))).map
          (fun _ => rec) := by
  intro hs
  induction hs with
  | nil => intro w; simp
  | cons h hs ih =>
    intro w
    obtain ⟨hk, hlvl⟩ := h
    cases hk with
    | stream =>
      by_cases hle : hlvl ≤ rec.level
      · simp [List.foldl_cons, emitToHandler, hle, ih, List.filter_cons]
      · simp [List.foldl_cons, emitToHandler, hle, ih, List.filter_cons]
    | file q =>
      by_cases hle : hlvl ≤ rec.level
      · by_cases hq : q = p
        · subst hq
          simp [List.foldl_cons, emitToHandler, hle, ih, List.filter_cons, List.append_assoc]
        · have hq2 : ¬ p = q := Ne.symm hq
          simp [List.foldl_cons, emitToHandler, hle, ih, List.filter_cons, hq, hq2]
      · simp [List.foldl_cons, emitToHandler, hle, ih, List.filter_cons]

theorem foldl_emit_handlers (rec : LogRecord) :
    ∀ (hs : List Handler) (w : World),
    (hs.foldl (emitToHandler rec) w).handlers = w.handlers := by
  intro hs
  induction hs with
  | nil => intro w; simp
  | cons h hs ih =>
    intro w
    obtain ⟨hk, hlvl⟩ := h
    cases hk <;> by_cases hle : hlvl ≤ rec.level <;>
      simp [List.foldl_cons, emitToHandler, hle, ih]

theorem foldl_emit_level (rec : LogRecord) :
    ∀ (hs : List Handler) (w : World),
    (hs.foldl (emitToHandler rec) w).level = w.level := by
  intro hs
  induction hs with
  | nil => intro w; simp
  | cons h hs ih =>
    intro w
    obtain ⟨hk, hlvl⟩ := h
    cases hk <;> by_cases hle : hlvl ≤ rec.level <;>
      simp [List.foldl_cons, emitToHandler, hle, ih]

theorem logCall_handlers (w : World) (lvl : Nat) (msg : String) :
    (logCall w lvl msg).handlers = w.handlers := by
  unfold logCall
  by_cases hel : w.effectiveLevel ≤ lvl <;> simp [hel, foldl_emit_handlers]

theorem logCall_level (w : World) (lvl : Nat) (msg : String) :
    (logCall w lvl msg).level = w.level := by
  unfold logCall
  by_cases hel : w.effectiveLevel ≤ lvl <;> simp [hel, foldl_emit_level]

theorem logCall_console (w : World) (lvl : Nat) (msg : String) :
    (logCall w lvl msg).console
      = w.console ++
        (if w.effectiveLevel ≤ lvl then
          (w.handlers.filter (fun h => h.isStream && decide (h.level ≤ lvl))).map
            (fun _ => ({ level := lvl, msg := msg } : LogRecord))
        else []) := by
  unfold logCall
  by_cases hel : w.effectiveLevel ≤ lvl
  · simp [hel, foldl_emit_console]
  · simp [hel]

theorem logCall_files (w : World) (lvl : Nat) (msg : String) (p : String) :
    (logCall w lvl msg).files p
      = w.files p ++
        (if w.effectiveLevel ≤ lvl then
          (w.handlers.filter (fun h =>
              decide (h.kind = HandlerKind.file p) && decide (h.level ≤ lvl))).map
            (fun _ => ({ level := lvl, msg := msg } : LogRecord))
        else []) := by
  unfold logCall
  by_cases hel : w.effectiveLevel ≤ lvl
  · simp [hel, foldl_emit_files]
  · simp [hel]

end PyLogging
end PyUtils

namespace PyUtils

namespace PyTimer

theorem update_eq (t : Timer) (n : Nat) :
    t.update n = { t with progress_bar := t.progress_bar.map (fun b => tqdmUpdate b n) } := by
  obtain ⟨nm, tot, lg, pb, st, en, el⟩ := t
  cases pb <;> simp [Timer.update]

theorem foldl_update_eq (updates : List Nat) :
    ∀ (t : Timer),
    updates.foldl (fun t n => t.update n) t
      = { t with progress_bar := t.progress_bar.map (fun b => updates.foldl tqdmUpdate b) } := by
  induction updates with
  | nil =>
    intro t
    obtain ⟨nm, tot, lg, pb, st, en, el⟩ := t
    cases pb <;> simp
  | cons n us ih =>
    intro t
    rw [List.foldl_cons, update_eq, ih]
    obtain ⟨nm, tot, lg, pb, st, en, el⟩ := t
    cases pb <;> simp

theorem foldl_tqdmUpdate_closeCount (updates : List Nat) :
    ∀ (b : Bar), (updates.foldl tqdmUpdate b).closeCount = b.closeCount := by
  induction updates with
  | nil => intro b; simp
  | cons n us ih => intro b; rw [List.foldl_cons, ih]; rfl

/-- C3: on every exit path of the `with Timer(...)` block — normal return or
an exception raised by the guarded block — the elapsed-time report is
emitted, the progress indicator (when one was created) is closed exactly
once, and a raised exception continues propagating unchanged (never
suppressed, transformed or replaced). -/
theorem withTimer_exit_guarantees {E α : Type} (name : String) (total : Option Nat)
    (logger : Option Nat) (t0 t1 : Nat) (updates : List Nat) (outcome : Except E α) :
    (withTimer name total logger t0 t1 updates outcome).2.2
        = (match outcome with
          | .ok a => WithResult.ok a
          | .error e => WithResult.raised e) ∧
    (withTimer name total logger t0 t1 updates outcome).2.1.length = 1 ∧
    (∀ tot, total = some tot →
      ∃ b, (withTimer name total logger t0 t1 updates outcome).1.progress_bar = some b ∧
        b.closeCount = 1) ∧
    (total = none → (withTimer name total logger t0 t1 updates outcome).1.progress_bar = none) := by
  cases total <;> cases logger <;> cases outcome <;>
    simp [withTimer, Timer.enter, Timer.mk', Timer.exitTimer, foldl_update_eq,
      pyTruthy, tqdmClose, foldl_tqdmUpdate_closeCount]

/-- C3 witness at a concrete run: a guarded block with a progress bar that
raises after two updates. -/
theorem withTimer_exit_guarantees_witness :
    (withTimer "w" (some 5) none 0 320 [1, 2] (.error "boom" : Except String Unit)).2.2
        = WithResult.raised "boom" ∧
    (withTimer "w" (some 5) none 0 320 [1, 2] (.error "boom" : Except String Unit)).2.1.length = 1 ∧
    (∃ b, (withTimer "w" (some 5) none 0 320 [1, 2]
        (.error "boom" : Except String Unit)).1.progress_bar = some b ∧ b.closeCount = 1) := by
  have h := withTimer_exit_guarantees "w" (some 5) none 0 320 [1, 2]
    (.error "boom" : Except String Unit)
  exact ⟨h.1, h.2.1, h.2.2.1 5 rfl⟩

end PyTimer

end PyUtils

namespace PyUtils
namespace PyTimer

/-- C7 (amended): on scope exit the timer emits exactly one report whose
text is the line `<name> took <elapsed, 2 decimal places> seconds.`
followed by a trailing newline, routed through the configured logger at
INFO level when one was supplied at construction and printed to standard
output otherwise. -/
theorem withTimer_report_shape {E alpha : Type} (name : String) (total : Option Nat)
    (logger : Option Nat) (t0 t1 : Nat) (updates : List Nat) (outcome : Except E alpha) :
    (withTimer name total logger t0 t1 updates outcome).2.1
      = [match logger with
         | some _ => TimerOut.logInfo (name ++ " took " ++ format_4_2f (t1 - t0) ++ " seconds.\n")
         | none => TimerOut.stdout (name ++ " took " ++ format_4_2f (t1 - t0) ++ " seconds.\n")] := by
  cases total <;> cases logger <;> cases outcome <;>
    simp [withTimer, Timer.enter, Timer.mk', Timer.exitTimer, foldl_update_eq, pyTruthy]

/-- C7 counterexample: the message the timer emits is not exactly the line
`<name> took <elapsed> seconds.` — it carries a trailing newline (so the
output shows a blank line after the report). -/
theorem withTimer_report_counterexample :
    (withTimer "task" none none 0 150 [] (Except.ok () : Except Unit Unit)).2.1
      = [TimerOut.stdout "task took 1.50 seconds.\n"] ∧
    "task took 1.50 seconds.\n" ≠ "task took 1.50 seconds." := by
  exact ⟨by decide, by decide⟩

end PyTimer
end PyUtils

namespace PyUtils
namespace PyLogging

/-- C6: the `log_function` wrapper, on a normally returning call, emits a
debug-level `<module>.<name> BEGIN` message before the call and a
debug-level `<module>.<name> END` message after it, calls the wrapped
function with the original arguments, and returns its result unchanged;
this holds for both invocation shapes (bare decoration routes to the
module-level logger, decoration with `logger_instance` routes to that
instance). -/
theorem log_function_brackets_call {alpha beta E : Type}
    (logger_instance : Option LoggerRef) (module_name func_name : String)
    (func : alpha → Except E beta) (args : alpha) (result : beta)
    (h : func args = .ok result) :
    log_function_wrapper logger_instance module_name func_name func args
      = ([{ target := logger_instance.getD .builtin, level := DEBUG,
            msg := module_name ++ "." ++ func_name ++ " BEGIN" },
          { target := logger_instance.getD .builtin, level := DEBUG,
            msg := module_name ++ "." ++ func_name ++ " END" }],
         .ok result) := by
  unfold log_function_wrapper
  rw [h]

/-- C6 witness: wrapping `add(a, b) = a + b` and calling it on `(2, 3)`
yields `5` with BEGIN then END bracketing the call, in the bare shape. -/
theorem log_function_brackets_call_witness :
    ((fun p : Nat × Nat => (Except.ok (p.1 + p.2) : Except Unit Nat)) (2, 3)
        = Except.ok 5) ∧
    log_function_wrapper none "pkg" "add"
        (fun p : Nat × Nat => (Except.ok (p.1 + p.2) : Except Unit Nat)) (2, 3)
      = ([{ target := LoggerRef.builtin, level := DEBUG, msg := "pkg.add BEGIN" },
          { target := LoggerRef.builtin, level := DEBUG, msg := "pkg.add END" }],
         Except.ok 5) :=
  ⟨rfl, log_function_brackets_call none "pkg" "add"
    (fun p : Nat × Nat => (Except.ok (p.1 + p.2) : Except Unit Nat)) (2, 3) 5 rfl⟩

/-- C5: when the wrapped function raises, the exception passes through the
wrapper unchanged and the END trace message is not emitted — only the
already-emitted BEGIN message appears. -/
theorem log_function_exception_skips_end {alpha beta E : Type}
    (logger_instance : Option LoggerRef) (module_name func_name : String)
    (func : alpha → Except E beta) (args : alpha) (e : E)
    (h : func args = .error e) :
    log_function_wrapper logger_instance module_name func_name func args
      = ([{ target := logger_instance.getD .builtin, level := DEBUG,
            msg := module_name ++ "." ++ func_name ++ " BEGIN" }],
         .error e) := by
  unfold log_function_wrapper
  rw [h]

/-- C5 witness: a wrapped function that raises propagates its exception and
emits only the BEGIN trace. -/
theorem log_function_exception_skips_end_witness :
    ((fun _ : Unit => (Except.error "boom" : Except String Nat)) ()
        = Except.error "boom") ∧
    log_function_wrapper none "pkg" "boomer"
        (fun _ : Unit => (Except.error "boom" : Except String Nat)) ()
      = ([{ target := LoggerRef.builtin, level := DEBUG, msg := "pkg.boomer BEGIN" }],
         Except.error "boom") :=
  ⟨rfl, log_function_exception_skips_end none "pkg" "boomer"
    (fun _ : Unit => (Except.error "boom" : Except String Nat)) () "boom" rfl⟩

/-- C4 (amended): `processing_log` emits one INFO-level message whose text
is a leading newline followed by the three lines separator, message,
separator — four lines in all, the first empty — where each separator is
exactly 40 `=` characters; the message reaches every console handler whose
level admits INFO. -/
theorem processing_log_banner (w : World) (msg : String)
    (h : w.effectiveLevel ≤ INFO) :
    (Logger.processing_log w msg).console
      = w.console ++
        (w.handlers.filter (fun h => h.isStream && decide (h.level ≤ INFO))).map
          (fun _ => ({ level := INFO,
                       msg := "\n" ++ Logger.separator ++ "\n" ++ msg ++ "\n" ++
                         Logger.separator } : LogRecord)) ∧
    Logger.separator.length = 40 ∧
    Logger.separator.data.all (fun c => c = '=') = true := by
  refine ⟨?_, by decide, by decide⟩
  unfold Logger.processing_log
  rw [logCall_console]
  simp [h]

/-- C4 witness: in the freshly imported module's world, `section("X")`
appends exactly one such banner record to the console. -/
theorem processing_log_banner_witness :
    World.effectiveLevel importLoggerModule.1 ≤ INFO ∧
    ((Logger.processing_log importLoggerModule.1 "X").console
      = importLoggerModule.1.console ++
        (importLoggerModule.1.handlers.filter
            (fun h => h.isStream && decide (h.level ≤ INFO))).map
          (fun _ => ({ level := INFO,
                       msg := "\n" ++ Logger.separator ++ "\n" ++ "X" ++ "\n" ++
                         Logger.separator } : LogRecord)) ∧
      Logger.separator.length = 40 ∧
      Logger.separator.data.all (fun c => c = '=') = true) :=
  ⟨by decide, processing_log_banner importLoggerModule.1 "X" (by decide)⟩

/-- C4 counterexample: the banner `processing_log` emits is not the
three-line string separator/message/separator — it starts with an extra
newline, so the first line of the message body is empty. -/
theorem processing_log_counterexample :
    (Logger.processing_log importLoggerModule.1 "X").console
      = [{ level := INFO,
           msg := "\n" ++ (Logger.separator ++ "\n" ++ "X" ++ "\n" ++ Logger.separator) }] ∧
    "\n" ++ (Logger.separator ++ "\n" ++ "X" ++ "\n" ++ Logger.separator)
      ≠ Logger.separator ++ "\n" ++ "X" ++ "\n" ++ Logger.separator := by
  exact ⟨by decide, by decide⟩

end PyLogging
end PyUtils

namespace PyUtils
namespace PyLogging

theorem set_log_file_eq (w : World) (inst : LoggerInst) (p : String) :
    Logger.set_log_file w inst p
      = ({ w with
            files := fun q => if q = p then [] else w.files q,
            handlers :=
              if w.handlers.any Handler.isFileHandler then w.handlers
              else w.handlers ++ [{ kind := HandlerKind.file p, level := DEBUG }] },
         { inst with log_file := some p }) := by
  unfold Logger.set_log_file
  by_cases hc : w.handlers.any Handler.isFileHandler <;> simp [hc]

theorem set_params_ok (w : World) (inst : LoggerInst) (s : String) (f : Option String)
    (L : Nat) (h : logging_uppercase_attr (upper s) = some (.int L)) :
    Logger.set_params w inst s f
      = (match f with
        | some p => .ok (Logger.set_log_file
            { w with level := L, handlers := w.handlers.map (fun h => { h with level := L }) }
            inst p)
        | none => .ok (Logger.clear_log_file
            { w with level := L, handlers := w.handlers.map (fun h => { h with level := L }) }
            inst)) := by
  unfold Logger.set_params
  rw [h]
  cases f <;> simp [checkLevel]

theorem set_params_fallback (w : World) (inst : LoggerInst) (s : String) (f : Option String)
    (h : logging_uppercase_attr (upper s) = none) :
    Logger.set_params w inst s f
      = (match f with
        | some p => .ok (Logger.set_log_file
            { w with level := INFO, handlers := w.handlers.map (fun h => { h with level := INFO }) }
            inst p)
        | none => .ok (Logger.clear_log_file
            { w with level := INFO, handlers := w.handlers.map (fun h => { h with level := INFO }) }
            inst)) := by
  unfold Logger.set_params
  rw [h]
  cases f <;> simp [checkLevel]

/-- C9 (amended): for every string whose uppercase form is not an attribute
of the `logging` module — in particular anything outside the level names
and their aliases WARN, FATAL and NOTSET, and the constant BASIC_FORMAT —
`set_params` does not fail and the shared logger's level silently falls
back to INFO.  (For alias names the code resolves the alias instead of
falling back, and BASIC_FORMAT raises; see the counterexample.) -/
theorem set_params_unknown_name_falls_back (w : World) (inst : LoggerInst)
    (s : String) (f : Option String)
    (h : logging_uppercase_attr (upper s) = none) :
    resultLevel (Logger.set_params w inst s f) = some INFO := by
  rw [set_params_fallback w inst s f h]
  cases f with
  | none => simp [resultLevel, Logger.clear_log_file]
  | some p => simp [resultLevel, set_log_file_eq]

/-- C9 witness: `set_params("verbose")` completes and leaves the level at
INFO. -/
theorem set_params_unknown_name_falls_back_witness :
    logging_uppercase_attr (upper "verbose") = none ∧
    resultLevel (Logger.set_params importLoggerModule.1 importLoggerModule.2 "verbose" none)
      = some INFO :=
  ⟨by decide, set_params_unknown_name_falls_back importLoggerModule.1 importLoggerModule.2
    "verbose" none (by decide)⟩

/-- C9 counterexample: `"warn"` is not one of the five documented severity
level names, yet `set_params("warn")` does not fall back to INFO — the
`getattr` lookup resolves the alias `logging.WARN` and the level becomes
WARNING (30). -/
theorem set_params_invalid_name_counterexample :
    ("WARN" ∈ validLevelNames) = False ∧
    ("warn" ∈ validLevelNames) = False ∧
    resultLevel (Logger.set_params importLoggerModule.1 importLoggerModule.2 "warn" none)
      = some WARNING ∧
    WARNING ≠ INFO := by
  refine ⟨by simp [validLevelNames], by simp [validLevelNames], by decide, by decide⟩

end PyLogging
end PyUtils

namespace PyUtils
namespace PyLogging

theorem init_none_eq (w : World) (l : Nat) :
    Logger.init w none l
      = ({ w with
            level := l,
            handlers := w.handlers ++ [{ kind := HandlerKind.stream, level := l }] },
         { log_file := none }) := by
  unfold Logger.init
  rfl

theorem constructK_succ_spec : ∀ k : Nat,
    (constructK (k + 1)).level = INFO ∧
    (constructK (k + 1)).handlers
      = List.replicate (k + 1) { kind := HandlerKind.stream, level := INFO } ∧
    (constructK (k + 1)).console = [] := by
  intro k
  induction k with
  | zero => exact ⟨rfl, rfl, rfl⟩
  | succ j ih =>
    obtain ⟨hl, hh, hc⟩ := ih
    have : constructK (j + 1 + 1) = (Logger.init (constructK (j + 1)) none INFO).1 := rfl
    rw [this, init_none_eq]
    refine ⟨rfl, ?_, hc⟩
    simp only [hh]
    rw [← List.replicate_succ' (j + 1)]

/-- C10 (amended): each `Logger` construction adds one more console handler
to the single shared underlying logger, so after `k` constructions (at the
default INFO level) one `info`/`warning`/`error`/`critical` call — any call
whose level is at least INFO — emits its message to the console `k` times,
once per accumulated handler; a `debug` call, however, is filtered out at
the INFO threshold and emits nothing. -/
theorem handler_accumulation (k : Nat) (hk : 1 ≤ k) (lvl : Nat) (msg : String)
    (hlvl : INFO ≤ lvl) :
    (logCall (constructK k) lvl msg).console
        = List.replicate k { level := lvl, msg := msg } ∧
    (Logger.debug (constructK k) msg).console = [] := by
  obtain ⟨j, rfl⟩ : ∃ j, k = j + 1 := ⟨k - 1, by omega⟩
  obtain ⟨hl, hh, hc⟩ := constructK_succ_spec j
  have heff : (constructK (j + 1)).effectiveLevel = INFO := by
    unfold World.effectiveLevel
    rw [hl]
    simp [INFO]
  constructor
  · rw [logCall_console, hc, heff, hh]
    simp only [hlvl, if_pos]
    rw [List.filter_replicate]
    simp [Handler.isStream, hlvl]
  · unfold Logger.debug
    rw [logCall_console, hc, heff]
    simp [INFO, DEBUG]

/-- C10 counterexample: with one constructed instance (the module-level
`logger` itself), a `debug` call emits the message zero times to the
console, not once per accumulated handler. -/
theorem handler_accumulation_debug_counterexample :
    (Logger.debug (constructK 1) "m").console = [] ∧
    List.length ([] : List LogRecord) ≠ 1 :=
  ⟨by decide, by decide⟩

/-- C10 witness: with two constructed instances, one `info` call emits the
message twice, and a `debug` call emits nothing. -/
theorem handler_accumulation_witness :
    (1 ≤ 2 ∧ INFO ≤ INFO) ∧
    ((logCall (constructK 2) INFO "m").console
        = List.replicate 2 { level := INFO, msg := "m" } ∧
     (Logger.debug (constructK 2) "m").console = []) :=
  ⟨⟨by decide, by decide⟩, handler_accumulation 2 (by decide) INFO "m" (by decide)⟩

end PyLogging
end PyUtils

namespace PyUtils
namespace PyLogging

/-- C8 (amended): a logged record lands in a sink's output iff its level
reaches both the shared logger's effective level and that sink's own
level — the logger-level filter applies on top of the per-sink one (the
spec's per-sink-threshold reading alone is refuted by the
counterexample). -/
theorem log_appears_iff (w : World) (lvl : Nat) (msg : String) (p : String) :
    (({ level := lvl, msg := msg } : LogRecord) ∈ (logCall w lvl msg).files p
      ↔ ({ level := lvl, msg := msg } : LogRecord) ∈ w.files p
        ∨ (w.effectiveLevel ≤ lvl ∧
            ∃ h ∈ w.handlers, h.kind = HandlerKind.file p ∧ h.level ≤ lvl)) ∧
    (({ level := lvl, msg := msg } : LogRecord) ∈ (logCall w lvl msg).console
      ↔ ({ level := lvl, msg := msg } : LogRecord) ∈ w.console
        ∨ (w.effectiveLevel ≤ lvl ∧
            ∃ h ∈ w.handlers, h.isStream = true ∧ h.level ≤ lvl)) := by
  constructor
  · rw [logCall_files]
    by_cases he : w.effectiveLevel ≤ lvl
    · simp [he, List.mem_filter]
    · simp [he]
  · rw [logCall_console]
    by_cases he : w.effectiveLevel ≤ lvl
    · simp [he, List.mem_filter]
    · simp [he]

/-- C8 counterexample: after `set_params("WARNING", "p")` the file sink's
own level is DEBUG (10), so by the claim an `info` (20) message should
appear in the file — but the logger-level filter (WARNING) drops it and
the file stays empty. -/
theorem log_appears_iff_counterexample :
    (resultWorld (Logger.set_params importLoggerModule.1 importLoggerModule.2
        "WARNING" (some "p"))).map
        (fun w => ((Logger.info w "m").files "p", w.handlers))
      = some ([],
          [{ kind := HandlerKind.stream, level := WARNING },
           { kind := HandlerKind.file "p", level := DEBUG }]) ∧
    DEBUG ≤ INFO := by
  exact ⟨by decide, by decide⟩

theorem set_params_world_indep (w : World) (i1 i2 : LoggerInst) (s : String)
    (f : Option String) :
    resultWorld (Logger.set_params w i1 s f) = resultWorld (Logger.set_params w i2 s f) := by
  unfold Logger.set_params
  cases hcl : checkLevel ((logging_uppercase_attr (upper s)).getD (.int INFO)) with
  | error e => simp [hcl, resultWorld]
  | ok L => cases f <;> simp [hcl, resultWorld, set_log_file_eq, Logger.clear_log_file]

/-- C2 (amended): all `Logger` instances wrap the one shared underlying
logger, so configuration is global rather than per-instance: the state
`set_params` produces does not depend on which instance performed the call,
and after any instance B configures level `L`, the minimum severity
observed through any other instance A is that same `L`. -/
theorem config_shared_across_instances (w : World) (instA instB : LoggerInst)
    (s : String) (f : Option String) (L : Nat)
    (h : logging_uppercase_attr (upper s) = some (.int L)) :
    resultWorld (Logger.set_params w instB s f)
        = resultWorld (Logger.set_params w instA s f) ∧
    (resultWorld (Logger.set_params w instB s f)).map
        (fun w2 => minSeverityThrough w2 instA) = some L := by
  refine ⟨set_params_world_indep w instB instA s f, ?_⟩
  rw [set_params_ok w instB s f L h]
  cases f with
  | none => simp [resultWorld, Logger.clear_log_file, minSeverityThrough]
  | some p => simp [resultWorld, set_log_file_eq, minSeverityThrough]

/-- C2 witness: instance B configuring DEBUG makes every instance,
including A, observe minimum severity DEBUG. -/
theorem config_shared_across_instances_witness :
    logging_uppercase_attr (upper "DEBUG") = some (.int DEBUG) ∧
    (resultWorld (Logger.set_params importLoggerModule.1 { log_file := none } "DEBUG" none)
        = resultWorld (Logger.set_params importLoggerModule.1 importLoggerModule.2 "DEBUG" none) ∧
     (resultWorld (Logger.set_params importLoggerModule.1 { log_file := none } "DEBUG" none)).map
        (fun w2 => minSeverityThrough w2 importLoggerModule.2) = some DEBUG) :=
  ⟨by decide, config_shared_across_instances importLoggerModule.1 importLoggerModule.2
    { log_file := none } "DEBUG" none DEBUG (by decide)⟩

/-- C2 counterexample: constructing a second instance B and calling
`set_params("DEBUG")` on it changes the first instance A's observed minimum
severity from INFO to DEBUG and rewrites A's handler set — the instances
are not independent. -/
theorem instance_independence_counterexample :
    minSeverityThrough (Logger.init importLoggerModule.1 none INFO).1 importLoggerModule.2
        = INFO ∧
    (resultWorld (Logger.set_params (Logger.init importLoggerModule.1 none INFO).1
          (Logger.init importLoggerModule.1 none INFO).2 "DEBUG" none)).map
        (fun w2 => (minSeverityThrough w2 importLoggerModule.2, w2.handlers))
      = some (DEBUG,
          [{ kind := HandlerKind.stream, level := DEBUG },
           { kind := HandlerKind.stream, level := DEBUG }]) ∧
    DEBUG ≠ INFO ∧
    (Logger.init importLoggerModule.1 none INFO).1.handlers
      ≠ [{ kind := HandlerKind.stream, level := DEBUG },
         { kind := HandlerKind.stream, level := DEBUG }] := by
  refine ⟨by decide, by decide, by decide, by decide⟩

end PyLogging
end PyUtils

namespace PyUtils
namespace PyLogging

theorem runLogs_cons (w : World) (m : Nat × String) (ms : List (Nat × String)) :
    runLogs w (m :: ms) = runLogs (logCall w m.1 m.2) ms := rfl

theorem runLogs_files_accum (p : String) (L : Nat) (hL : DEBUG ≤ L) :
    ∀ (ms : List (Nat × String)) (w : World), w.level = L →
    w.handlers.filter (fun h => decide (h.kind = HandlerKind.file p))
      = [{ kind := HandlerKind.file p, level := DEBUG }] →
    (runLogs w ms).files p
      = w.files p ++ (ms.filter (fun m => decide (L ≤ m.1))).map
          (fun m => { level := m.1, msg := m.2 }) := by
  intro ms
  induction ms with
  | nil => intro w hw hf; simp [runLogs]
  | cons m ms ih =>
    intro w hw hf
    rw [runLogs_cons, ih (logCall w m.1 m.2) (by rw [logCall_level]; exact hw)
        (by rw [logCall_handlers]; exact hf)]
    rw [logCall_files]
    have heff : w.effectiveLevel = L := by
      unfold World.effectiveLevel
      rw [hw]
      have hne : L ≠ 0 := by
        unfold DEBUG at hL
        omega
      simp [hne]
    rw [heff]
    have hcomb : w.handlers.filter (fun h =>
        decide (h.kind = HandlerKind.file p) && decide (h.level ≤ m.1))
        = (w.handlers.filter (fun h => decide (h.kind = HandlerKind.file p))).filter
            (fun h => decide (h.level ≤ m.1)) := by
      rw [List.filter_filter]
      exact List.filter_congr (fun a _ => Bool.and_comm _ _)
    rw [hcomb, hf]
    by_cases hm : L ≤ m.1
    · have h10 : DEBUG ≤ m.1 := le_trans hL hm
      simp [hm, h10, List.filter_cons]
    · simp [hm, List.filter_cons]

theorem fcount_map (hs : List Handler) (L : Nat) :
    ((hs.map (fun h => { h with level := L })).filter Handler.isFileHandler).length
      = (hs.filter Handler.isFileHandler).length := by
  induction hs with
  | nil => rfl
  | cons h hs ih =>
    obtain ⟨hk, hl⟩ := h
    cases hk <;> simp [Handler.isFileHandler, List.filter_cons, ih]

theorem any_map_level (hs : List Handler) (L : Nat) :
    (hs.map (fun h => { h with level := L })).any Handler.isFileHandler
      = hs.any Handler.isFileHandler := by
  induction hs with
  | nil => rfl
  | cons h hs ih =>
    obtain ⟨hk, hl⟩ := h
    cases hk <;> simp [Handler.isFileHandler, List.any_cons, ih]

theorem filterMap_kind_map (hs : List Handler) (L : Nat) :
    (hs.map (fun h => { h with level := L })).filterMap (fun h =>
      match h.kind with
      | HandlerKind.file p => some p
      | HandlerKind.stream => none)
      = hs.filterMap (fun h =>
          match h.kind with
          | HandlerKind.file p => some p
          | HandlerKind.stream => none) := by
  induction hs with
  | nil => rfl
  | cons h hs ih =>
    obtain ⟨hk, hl⟩ := h
    cases hk <;> simp [List.filterMap_cons, ih]

theorem filterMap_kind_any_false (hs : List Handler)
    (h : hs.any Handler.isFileHandler = false) :
    hs.filterMap (fun h =>
      match h.kind with
      | HandlerKind.file p => some p
      | HandlerKind.stream => none) = [] := by
  rw [List.any_eq_false] at h
  apply List.filterMap_eq_nil_iff.mpr
  intro a ha
  have ha2 := h a ha
  cases hk : a.kind with
  | stream => simp
  | file q =>
    exfalso
    apply ha2
    simp [Handler.isFileHandler, hk]

theorem filter_kindfile_map_any_false (hs : List Handler) (p : String) (L : Nat)
    (h : hs.any Handler.isFileHandler = false) :
    (hs.map (fun h => { h with level := L })).filter
      (fun h => decide (h.kind = HandlerKind.file p)) = [] := by
  rw [List.any_eq_false] at h
  apply List.filter_eq_nil_iff.mpr
  intro a ha
  rw [List.mem_map] at ha
  obtain ⟨b, hb, rfl⟩ := ha
  have hb2 := h b hb
  cases hk : b.kind with
  | stream => simp [hk]
  | file q =>
    exfalso
    apply hb2
    simp [Handler.isFileHandler, hk]

theorem fcount_any_false (hs : List Handler)
    (h : hs.any Handler.isFileHandler = false) :
    (hs.filter Handler.isFileHandler).length = 0 := by
  rw [List.any_eq_false] at h
  simp [List.filter_eq_nil_iff.mpr h]

theorem fileCount_set_log_file (w : World) (inst : LoggerInst) (p : String)
    (h : w.fileCount ≤ 1) : (Logger.set_log_file w inst p).1.fileCount ≤ 1 := by
  rw [set_log_file_eq]
  unfold World.fileCount at h ⊢
  by_cases hany : w.handlers.any Handler.isFileHandler
  · simpa [hany] using h
  · have hfalse : w.handlers.any Handler.isFileHandler = false := by
      simpa using hany
    have h0 := fcount_any_false w.handlers hfalse
    simp [hfalse, List.filter_append, Handler.isFileHandler, h0]

theorem set_params_checkLevel_error (w : World) (inst : LoggerInst) (s : String)
    (f : Option String) (e : String)
    (h : checkLevel ((logging_uppercase_attr (upper s)).getD (.int INFO)) = .error e) :
    Logger.set_params w inst s f = .error e := by
  unfold Logger.set_params
  rw [h]

theorem set_params_checkLevel_ok (w : World) (inst : LoggerInst) (s : String)
    (f : Option String) (L : Nat)
    (h : checkLevel ((logging_uppercase_attr (upper s)).getD (.int INFO)) = .ok L) :
    Logger.set_params w inst s f
      = (match f with
        | some p => .ok (Logger.set_log_file
            { w with level := L, handlers := w.handlers.map (fun h => { h with level := L }) }
            inst p)
        | none => .ok (Logger.clear_log_file
            { w with level := L, handlers := w.handlers.map (fun h => { h with level := L }) }
            inst)) := by
  unfold Logger.set_params
  rw [h]

/-- Every operation of `logger.py` keeps at most one file handler attached
to the shared logger. -/
theorem fileCount_le_one_preserved (w : World) (op : LoggerOp)
    (h : w.fileCount ≤ 1) : (applyOp w op).fileCount ≤ 1 := by
  have hclear : ∀ (w2 : World) (i2 : LoggerInst),
      (Logger.clear_log_file w2 i2).1.fileCount ≤ 1 := by
    intro w2 i2
    unfold Logger.clear_log_file World.fileCount
    rw [List.filter_filter]
    have hfalse : ∀ x : Handler, (Handler.isFileHandler x && ! Handler.isFileHandler x) = false := by
      intro x
      cases hx : x.isFileHandler <;> simp [hx]
    simp [hfalse]
  cases op with
  | construct f l =>
    have hstep : ({ w with
        level := l,
        handlers := w.handlers ++ [{ kind := HandlerKind.stream, level := l }] }
          : World).fileCount ≤ 1 := by
      unfold World.fileCount at h ⊢
      simpa [List.filter_append, Handler.isFileHandler] using h
    cases f with
    | none =>
      simpa only [applyOp, Logger.init] using hstep
    | some p =>
      simp only [applyOp, Logger.init]
      exact fileCount_set_log_file _ _ p hstep
  | setParams sl f =>
    simp only [applyOp]
    cases hcl : checkLevel ((logging_uppercase_attr (upper sl)).getD (.int INFO)) with
    | error e =>
      rw [set_params_checkLevel_error w _ sl f e hcl]
      exact h
    | ok L =>
      rw [set_params_checkLevel_ok w _ sl f L hcl]
      have hmapped : ({ w with
          level := L,
          handlers := w.handlers.map (fun h => { h with level := L }) }
            : World).fileCount ≤ 1 := by
        unfold World.fileCount at h ⊢
        simpa [fcount_map] using h
      cases f with
      | none => exact hclear _ _
      | some p => exact fileCount_set_log_file _ _ p hmapped
  | setLogFile p =>
    simp only [applyOp]
    exact fileCount_set_log_file w _ p h
  | clearLogFile =>
    simp only [applyOp]
    exact hclear _ _
  | logMsg lvl msg =>
    simp only [applyOp]
    unfold World.fileCount
    rw [logCall_handlers]
    exact h

end PyLogging
end PyUtils

namespace PyUtils
namespace PyLogging

/-- C1 (amended): `set_params` with a file path `p` always truncates/creates
`p` and records it as the instance's `log_file`; however `p` becomes the
sole active file sink only when no file sink is attached yet, in which case
`p` thereafter contains exactly the subsequently logged messages that pass
the configured threshold, in order, with no residual content.  When a file
sink is already attached, the prior sink remains the active one (the set of
file-sink paths is unchanged and `p`, though truncated, is not attached).
At most one file sink is ever active: every operation preserves that bound. -/
theorem set_params_file_sink_behavior (w : World) (inst : LoggerInst)
    (s : String) (p : String) (L : Nat)
    (h : logging_uppercase_attr (upper s) = some (.int L)) (hL : DEBUG ≤ L) :
    (w.handlers.any Handler.isFileHandler = false →
      (resultPair (Logger.set_params w inst s (some p))).map
          (fun r => (r.1.fileSinkPaths, r.2.log_file, r.1.files p))
        = some ([p], some p, []) ∧
      ∀ ms, (resultWorld (Logger.set_params w inst s (some p))).map
          (fun w1 => (runLogs w1 ms).files p)
        = some ((ms.filter (fun m => decide (L ≤ m.1))).map
            (fun m => { level := m.1, msg := m.2 }))) ∧
    (w.handlers.any Handler.isFileHandler = true →
      (resultPair (Logger.set_params w inst s (some p))).map
          (fun r => (r.1.fileSinkPaths, r.2.log_file, r.1.files p))
        = some (w.fileSinkPaths, some p, [])) ∧
    (∀ op, w.fileCount ≤ 1 → (applyOp w op).fileCount ≤ 1) := by
  have hsp : Logger.set_params w inst s (some p)
      = .ok (Logger.set_log_file
          { w with
            level := L,
            handlers := w.handlers.map (fun h => { h with level := L }) }
          inst p) := by
    rw [set_params_ok w inst s (some p) L h]
  refine ⟨?_, ?_, fun op hc => fileCount_le_one_preserved w op hc⟩
  · intro hno
    have hcond : (w.handlers.map (fun h => { h with level := L })).any Handler.isFileHandler
        = false := by
      rw [any_map_level]
      exact hno
    rw [hsp, set_log_file_eq]
    constructor
    · simp only [resultPair, Option.map, hcond, Bool.false_eq_true, if_false]
      unfold World.fileSinkPaths
      simp [List.filterMap_append, filterMap_kind_any_false _ hcond, List.filterMap_cons]
    · intro ms
      simp only [resultWorld, Option.map, hcond, Bool.false_eq_true, if_false]
      rw [runLogs_files_accum p L hL ms _ rfl ?hfilt]
      case hfilt =>
        simp only []
        rw [List.filter_append, filter_kindfile_map_any_false w.handlers p L hno]
        simp [List.filter_cons]
      simp
  · intro hyes
    have hcond : (w.handlers.map (fun h => { h with level := L })).any Handler.isFileHandler
        = true := by
      rw [any_map_level]
      exact hyes
    rw [hsp, set_log_file_eq]
    simp only [resultPair, Option.map, hcond, if_true]
    unfold World.fileSinkPaths
    rw [filterMap_kind_map]

end PyLogging
end PyUtils

namespace PyUtils
namespace PyLogging

/-- C1 witness: a fresh attachment of `run.log` at DEBUG level; after
logging `info "hello"` and `debug "world"`, the file holds exactly those
two records in order. -/
theorem set_params_file_sink_behavior_witness :
    (logging_uppercase_attr (upper "DEBUG") = some (PyAttr.int DEBUG) ∧
     DEBUG ≤ DEBUG ∧
     importLoggerModule.1.handlers.any Handler.isFileHandler = false) ∧
    ((resultPair (Logger.set_params importLoggerModule.1 importLoggerModule.2
          "DEBUG" (some "run.log"))).map
        (fun r => (r.1.fileSinkPaths, r.2.log_file, r.1.files "run.log"))
      = some (["run.log"], some "run.log", []) ∧
     (resultWorld (Logger.set_params importLoggerModule.1 importLoggerModule.2
          "DEBUG" (some "run.log"))).map
        (fun w1 => (runLogs w1 [(INFO, "hello"), (DEBUG, "world")]).files "run.log")
      = some [{ level := INFO, msg := "hello" }, { level := DEBUG, msg := "world" }]) := by
  have hth := set_params_file_sink_behavior importLoggerModule.1 importLoggerModule.2
    "DEBUG" "run.log" DEBUG (by decide) (by decide)
  have ha := hth.1 (by decide)
  refine ⟨⟨by decide, by decide, by decide⟩, ha.1, ?_⟩
  rw [ha.2 [(INFO, "hello"), (DEBUG, "world")]]
  decide

/-- C1 counterexample: configuring `p1` and then `p2` leaves `p1` the sole
active file sink — `p2` is truncated and recorded on the instance but not
attached, so a subsequent `info "hello"` lands in `p1` while `p2` stays
empty, contradicting both the sole-sink replacement and the
exactly-the-messages-after-attachment property for `p2`. -/
theorem set_params_file_sink_counterexample :
    ((resultPair (Logger.set_params importLoggerModule.1 importLoggerModule.2
          "INFO" (some "p1"))).bind
        (fun r => resultPair (Logger.set_params r.1 r.2 "INFO" (some "p2")))).map
        (fun r => (r.1.fileSinkPaths, r.2.log_file,
                   (Logger.info r.1 "hello").files "p1",
                   (Logger.info r.1 "hello").files "p2"))
      = some (["p1"], some "p2", [{ level := INFO, msg := "hello" }], []) ∧
    ["p1"] ≠ ["p2"] := by
  exact ⟨by decide, by decide⟩

end PyLogging
end PyUtils
